import Mathlib

/-!
Shallow embedding of the base Client of `src/src/client.js` (the
driver-agnostic connection-management and query-dispatch layer of a
knex fork), together with theorems settling the specification claims
about it.

Conventions of the embedding:
* JS errors are reduced to their `message` string (`JsError`), which is
  the only part this layer reads or writes.
* The driver primitives (`_query`, `_stream`, `acquireRawConnection`,
  the pool machinery of the external `pool2` dependency) are external
  collaborators; each operation is parameterised by the outcome such a
  primitive produces, as an `Except JsError _` value.
* Event emission is modelled by returning the list of events the call
  emits, in order.
* JS `undefined` object fields are modelled with `Option` (`none` =
  field absent / undefined, which is falsy).
-/

namespace KnexClient

/-- A JS error value; only its `message` matters to this layer. -/
structure JsError where
  message : String
deriving Repr, DecidableEq

/-- A raw connection handle after the pool tagged it: the source assigns
`connection.__knexUid = uniqueId(..)` at creation. -/
structure Connection where
  knexUid : Nat
deriving Repr, DecidableEq

/-- The argument of `query`/`stream`: either a raw SQL string or a
structured object with `sql` and `bindings`. -/
inductive QueryRequest where
  | str (sql : String)
  | obj (sql : String) (bindings : List Int)
deriving Repr, DecidableEq

/-- The normalized query object (`obj` after the
string-to-object normalization step of `query` and
`stream`, source lines 137 and 148); absent bindings are the empty
list. -/
structure QueryObj where
  sql : String
  bindings : List Int
deriving Repr, DecidableEq

def normalizeRequest : QueryRequest → QueryObj
  | QueryRequest.str s => ⟨s, []⟩
  | QueryRequest.obj s b => ⟨s, b⟩

/-- Events the Client emits, with the payload fields the claims are
about: the tagged identifier (`__knexUid` of the handle), the
(rewritten) error message, and the normalized query object. -/
inductive ClientEvent where
  | query (uid : Nat) (q : QueryObj)
  | queryError (uid : Nat) (message : String) (q : QueryObj)
deriving Repr, DecidableEq

/-- Modelled from the spec: `SqlString.format` is imported from
`./query/string`, a file of this repository that is not under `src/`.
The spec describes it as producing "a fully-interpolated representation
of the statement (SQL with bindings substituted for display)", with the
concrete example that `SELECT ? AS x` with bindings `[1]` renders as
`SELECT 1 AS x`. We substitute each `?` placeholder by the rendering of
the next binding (bindings are modelled as integers, which covers the
example given by the spec). -/
def sqlFormatChars : List Char → List Int → List Char
  | [], _ => []
  | c :: cs, bs =>
    if c = '?' then
      match bs with
      | [] => c :: sqlFormatChars cs []
      | b :: rest => (toString b).data ++ sqlFormatChars cs rest
    else c :: sqlFormatChars cs bs

def sqlFormat (sql : String) (bindings : List Int) : String :=
  String.mk (sqlFormatChars sql.data bindings)

/-- `Client.prototype.query` (source lines 136-145): normalizes a string
request, emits a tagged `query` event, dispatches to the driver
primitive `_query` (whose outcome is the `driver` parameter), and on
failure rewrites the error message to
`SqlString.format(obj.sql, obj.bindings) + " - " + err.message`, emits a
tagged `query-error` event and re-raises. -/
def query (conn : Connection) (req : QueryRequest) (driver : Except JsError Nat) :
    Except JsError Nat × List ClientEvent :=
  let obj := normalizeRequest req
  let pre := [ClientEvent.query conn.knexUid obj]
  match driver with
  | Except.ok v => (Except.ok v, pre)
  | Except.error e =>
    let msg := sqlFormat obj.sql obj.bindings ++ " - " ++ e.message
    (Except.error ⟨msg⟩, pre ++ [ClientEvent.queryError conn.knexUid msg obj])

/-- `Client.prototype.stream` (source lines 147-152): same normalization
and tagged `query` event as `query`, then delegates to the driver
primitive `_stream`; no catch handler, so the driver outcome passes
through unmodified and no `query-error` event is emitted. -/
def stream (conn : Connection) (req : QueryRequest) (driver : Except JsError Nat) :
    Except JsError Nat × List ClientEvent :=
  let obj := normalizeRequest req
  (driver, [ClientEvent.query conn.knexUid obj])

/-- `value.replace(/"/g, <doubled quote>)` of `wrapIdentifier` (source
line 159): every double-quote character is replaced by two. -/
def jsReplaceQuote : List Char → List Char
  | [] => []
  | c :: cs => (if c = '"' then ['"', '"'] else [c]) ++ jsReplaceQuote cs

/-- `Client.prototype.wrapIdentifier` (source lines 158-160). -/
def wrapIdentifier (value : String) : String :=
  if value ≠ "*" then "\"" ++ String.mk (jsReplaceQuote value.data) ++ "\"" else "*"

/-- The `pool` entry of a configuration (also an entry of a `cluster`
list): the sizing fields and the lifecycle hooks the claims mention.
`none` = field absent. -/
structure PoolConfig where
  min : Option Int := none
  max : Option Int := none
  hasAfterCreate : Bool := false
  hasBeforeDestroy : Bool := false
deriving Repr, DecidableEq

/-- The configuration consumed by the `Client` constructor, reduced to
the fields the constructor branches on: presence of `connection`
settings, the optional `pool` entry, the optional `cluster` list. -/
structure Config where
  connection : Bool := false
  pool : Option PoolConfig := none
  cluster : Option (List PoolConfig) := none
deriving Repr, DecidableEq

/-- The live pool object built by `initializePool` (source lines
180-189): `new Pool(assign(this.poolDefaults(..), poolConfig))`, so the
defaults `min: 2, max: 10` of `poolDefaults` (source lines 194-195) are
overridden field-wise by the caller-supplied `poolConfig`. -/
structure PoolState where
  min : Int
  max : Int
  config : PoolConfig
deriving Repr, DecidableEq

def initializePool (poolConfig : PoolConfig) : PoolState :=
  ⟨poolConfig.min.getD 2, poolConfig.max.getD 10, poolConfig⟩

/-- The cluster router built by `initializeCluster` (source lines
172-178): one pool per entry of the cluster list. -/
structure ClusterState where
  pools : List PoolState
deriving Repr, DecidableEq

def initializeCluster (clusterConfig : List PoolConfig) : ClusterState :=
  ⟨clusterConfig.map initializePool⟩

/-- The mutable references of a Client: `this.pool` and `this.cluster`
(undefined unless the constructor set them). -/
structure ClientState where
  pool : Option PoolState := none
  cluster : Option ClusterState := none
deriving Repr, DecidableEq

/-- The `Client` constructor (source lines 33-56), restricted to the
pool/cluster initialization the claims are about. `driverName` is the
dialect-supplied `this.driverName` property (absent on the abstract base
client). Mirrors the source exactly:
* the block runs only when `this.driverName && (config.connection ||
  config.cluster)`;
* a config with both `pool` and `cluster` throws synchronously (line
  40-42) before any pool or cluster is built;
* a pool is built only when `config.pool && config.pool.max !== 0`
  (line 44) — note the `config.pool &&` conjunct: with `pool` omitted no
  pool is built;
* a cluster is built when `config.cluster` is present (line 48). -/
def mkClient (driverName : Bool) (config : Config) : Except JsError ClientState :=
  if driverName && (config.connection || config.cluster.isSome) then
    if config.pool.isSome && config.cluster.isSome then
      Except.error ⟨"Cannot specify both pool and cluster in config"⟩
    else
      Except.ok
        { pool :=
            match config.pool with
            | some pc => if pc.max ≠ some 0 then some (initializePool pc) else none
            | none => none
          cluster := config.cluster.map initializeCluster }
  else
    Except.ok {}

/-- How the `destroy` promise resolved: immediately (no pool/cluster
existed) or after the pool/cluster was drained via `pool.end`. -/
inductive DestroySignal where
  | immediate
  | drained
deriving Repr, DecidableEq

/-- `Client.prototype.destroy` (source lines 263-280): with no pool and
no cluster the promise resolves at once, leaving the state untouched;
otherwise `pool.end` drains and its callback clears both `this.pool` and
`this.cluster` to undefined before resolving. -/
def destroy (c : ClientState) : ClientState × DestroySignal :=
  match c.pool, c.cluster with
  | none, none => (c, DestroySignal.immediate)
  | _, _ => ({ pool := none, cluster := none }, DestroySignal.drained)

/-- State of a pool acquire request (of the external pool dependency):
still pending, fulfilled (completed), or aborted. -/
inductive RequestState where
  | pending
  | fulfilled
  | aborted
deriving Repr, DecidableEq

structure PoolRequest where
  state : RequestState
deriving Repr, DecidableEq

/-- The `request.fulfilled` flag the client-side abort guard reads
(source line 240). -/
def PoolRequest.isFulfilled (r : PoolRequest) : Bool :=
  r.state = RequestState.fulfilled

/-- Modelled from the spec: `request.abort` of the external pool
dependency (pool2) is not part of this repository. The
cancellation contract of the spec: abort "cancels the underlying acquire" only
"if the request is still pending" and "must be safe to call multiple
times" — so a pending request becomes aborted and any other request is
left unchanged. -/
def requestAbortPrim (r : PoolRequest) : PoolRequest :=
  match r.state with
  | RequestState.pending => ⟨RequestState.aborted⟩
  | _ => r

/-- The `abort` closure returned by `acquireConnection` (source lines
239-243): `if (request && !request.fulfilled) request.abort(reason)`,
otherwise nothing happens. -/
def clientAbort : Option PoolRequest → Option PoolRequest
  | none => none
  | some r => if r.isFulfilled then some r else some (requestAbortPrim r)

/-- The value `acquireConnection` returns: the `completed` promise
outcome and the underlying pool request (if one was issued). -/
structure AcquirePair where
  completed : Except JsError Connection
  request : Option PoolRequest
deriving Repr

def noPoolMessage : String := "There is no pool defined on the current client"

/-- The TypeError raised when source line 231 reads the `acquire` method
from `client.pool` while `client.pool` is undefined. -/
def typeErrorMessage : String :=
  "TypeError: Cannot read property acquire of undefined"

/-- Modelled from the spec: the non-cluster alternative of the acquire
selection on source line 231 is absent from `src/` (the conditional
expression `client.cluster ? client.pool.acquire.bind(client, capability);`
has no alternative branch), and the pool machinery behind `acquire`
belongs to the external pool dependency. Per the spec, a pool acquire
completes the future with the handle or with the acquisition error, and
the underlying request is fulfilled at that point. -/
def runPoolAcquire (driver : Except JsError Connection) : AcquirePair :=
  match driver with
  | Except.ok conn => ⟨Except.ok conn, some ⟨RequestState.fulfilled⟩⟩
  | Except.error e => ⟨Except.error e, some ⟨RequestState.fulfilled⟩⟩

/-- `Client.prototype.acquireConnection` (source lines 224-248):
* with neither pool nor cluster, the promise rejects with the
  "no pool defined" error (lines 228-230) and no request is issued;
* with a cluster configured, line 231 selects
  `client.pool.acquire.bind(client, capability)` — it reads `acquire`
  from `client.pool`, which is nil under a cluster configuration, so the
  promise executor throws a TypeError and the promise rejects;
* otherwise the acquire is delegated to the pool (see
  `runPoolAcquire`). -/
def acquireConnection (c : ClientState) (driver : Except JsError Connection) :
    AcquirePair :=
  if c.pool.isNone && c.cluster.isNone then
    ⟨Except.error ⟨noPoolMessage⟩, none⟩
  else if c.cluster.isSome then
    match c.pool with
    | none => ⟨Except.error ⟨typeErrorMessage⟩, none⟩
    | some _ => runPoolAcquire driver
  else
    runPoolAcquire driver

/-- Outcome of the pool-level `acquire` callback of `poolDefaults`
(source lines 196-205): the result delivered to the pool callback, and
whether `client.destroyRawConnection` was invoked on the raw connection
during the acquire. -/
structure PoolAcquireOutcome where
  result : Except JsError Connection
  rawDisposed : Bool
deriving Repr

/-- The `acquire` callback of `poolDefaults` (source lines 196-205):
`client.acquireRawConnection(connectionSettings).tap(connection => \x7b
connection.__knexUid = uniqueId(..); if (poolConfig.afterCreate) return
promisify(afterCreate)(connection) \x7d).asCallback(callback)`.

The chain is modelled with the evident scope slip of the source left
aside: the enclosing `poolDefaults` spells its second parameter
`coonectionSettings` while line 197 reads `connectionSettings`, so as
written the callback would throw a ReferenceError before creating any
connection; the model passes the settings through and embeds the
intended chain so that the hook behaviour is visible. The chain has no
catch handler: on a failed `afterCreate` hook the rejection flows to the
callback and `client.destroyRawConnection` is never invoked, so
`rawDisposed` is `false` on every path of the source. -/
def poolDefaultsAcquire (freshUid : Nat)
    (afterCreate : Option (Connection → Except JsError Unit))
    (raw : Except JsError Unit) : PoolAcquireOutcome :=
  match raw with
  | Except.error e => ⟨Except.error e, false⟩
  | Except.ok _ =>
    let conn : Connection := ⟨freshUid⟩
    match afterCreate with
    | none => ⟨Except.ok conn, false⟩
    | some hook =>
      match hook conn with
      | Except.ok _ => ⟨Except.ok conn, false⟩
      | Except.error e => ⟨Except.error e, false⟩

/-! ## Theorems settling the claims -/

/-- The escape step of `wrapIdentifier` doubles every double-quote
character: it is the join of the per-character doubling map. -/
theorem jsReplaceQuote_eq_join_map (cs : List Char) :
    jsReplaceQuote cs =
      (cs.map (fun c => if c = '"' then ['"', '"'] else [c])).flatten := by
  induction cs with
  | nil => rfl
  | cons c cs ih => simp [jsReplaceQuote, ih]

/-- Claim C1: on a driver-level failure `e`, `query` re-raises an error
whose message is the fully-interpolated statement followed by " - " and
the original message, and emits a `query-error` event tagged with the
identifier of the handle; on success nothing is rewritten and no
`query-error` event occurs; the spec example `SELECT ? AS x` with
bindings `[1]` renders as `SELECT 1 AS x`. -/
theorem query_rewrites_error_and_emits (conn : Connection) (req : QueryRequest)
    (e : JsError) (v : Nat) :
    query conn req (Except.error e) =
      (Except.error ⟨sqlFormat (normalizeRequest req).sql
          (normalizeRequest req).bindings ++ " - " ++ e.message⟩,
        [ClientEvent.query conn.knexUid (normalizeRequest req),
          ClientEvent.queryError conn.knexUid
            (sqlFormat (normalizeRequest req).sql (normalizeRequest req).bindings
              ++ " - " ++ e.message)
            (normalizeRequest req)])
  ∧ query conn req (Except.ok v) =
      (Except.ok v, [ClientEvent.query conn.knexUid (normalizeRequest req)])
  ∧ sqlFormat "SELECT ? AS x" [1] = "SELECT 1 AS x" :=
  ⟨rfl, rfl, by decide⟩

/-- Claim C2: after `destroy` resolves, both the pool and the cluster
reference are cleared, every subsequent `acquireConnection` rejects with
the "no pool defined" error, and with no pool and no cluster `destroy`
resolves immediately. -/
theorem destroy_clears_and_blocks_acquire (c : ClientState)
    (d : Except JsError Connection) :
    (destroy c).1.pool = none
  ∧ (destroy c).1.cluster = none
  ∧ (acquireConnection (destroy c).1 d).completed = Except.error ⟨noPoolMessage⟩
  ∧ (destroy { pool := none, cluster := none }).2 = DestroySignal.immediate := by
  rcases c with ⟨p, cl⟩
  cases p <;> cases cl <;> simp [destroy, acquireConnection]

/-- Claim C3: a configuration specifying both `pool` and `cluster` makes
the constructor throw the configuration error synchronously, so no pool
and no cluster is ever created for that client. -/
theorem both_pool_and_cluster_throws (config : Config)
    (hp : config.pool.isSome = true) (hc : config.cluster.isSome = true) :
    mkClient true config =
      Except.error ⟨"Cannot specify both pool and cluster in config"⟩ := by
  simp [mkClient, hp, hc]

theorem both_pool_and_cluster_throws_witness :
    (Config.mk false (some {}) (some [])).pool.isSome = true
  ∧ (Config.mk false (some {}) (some [])).cluster.isSome = true
  ∧ mkClient true (Config.mk false (some {}) (some [])) =
      Except.error ⟨"Cannot specify both pool and cluster in config"⟩ :=
  ⟨rfl, rfl, both_pool_and_cluster_throws (Config.mk false (some {}) (some [])) rfl rfl⟩

/-- Claim C4 (code bug): a configuration with connection settings, no
cluster and `pool` omitted entirely yields a client WITHOUT a pool —
source line 44 requires `config.pool` to be truthy before building one,
so the claimed default pool is never created. -/
theorem connection_without_pool_entry_builds_no_pool :
    mkClient true { connection := true } =
      Except.ok { pool := none, cluster := none } := rfl

/-- Claim C5 (code bug): when the `afterCreate` hook fails on a freshly
created connection, the acquire does complete with the hook error, but
the partially-created handle is never disposed — the source chain of
`poolDefaults.acquire` has no handler invoking `destroyRawConnection`,
so the handle is leaked. -/
theorem failed_afterCreate_hook_leaks_connection :
    poolDefaultsAcquire 7 (some fun _ => Except.error ⟨"afterCreate failed"⟩)
        (Except.ok ()) =
      { result := Except.error ⟨"afterCreate failed"⟩, rawDisposed := false } := rfl

/-- Claim C6 (code bug): with a cluster configured, `acquireConnection`
does not delegate to the acquire of the cluster router: source line 231
reads the acquire method from `client.pool`, which is nil under a
cluster configuration, so the `completed` promise rejects with a
TypeError instead of resolving with the router-produced handle. -/
theorem cluster_acquire_rejects_with_type_error :
    acquireConnection { cluster := some (initializeCluster [{}]) }
        (Except.ok ⟨1⟩) =
      { completed := Except.error ⟨typeErrorMessage⟩, request := none } := rfl

/-- Claim C7: the abort of an `acquireConnection` result is a no-op once
the underlying request is fulfilled (the request of a resolved acquire
is left untouched), calling it any number of times is safe (it is
idempotent), and it cancels the underlying acquire only while the
request is still pending. -/
theorem abort_noop_once_fulfilled (r : PoolRequest) (c : ClientState)
    (conn : Connection) :
    clientAbort (acquireConnection c (Except.ok conn)).request =
      (acquireConnection c (Except.ok conn)).request
  ∧ clientAbort (clientAbort (some r)) = clientAbort (some r)
  ∧ clientAbort (some ⟨RequestState.pending⟩) = some ⟨RequestState.aborted⟩
  ∧ clientAbort (some ⟨RequestState.fulfilled⟩) = some ⟨RequestState.fulfilled⟩ := by
  refine ⟨?_, ?_, rfl, rfl⟩
  · rcases c with ⟨p, cl⟩
    cases p <;> cases cl <;>
      simp [acquireConnection, runPoolAcquire, clientAbort, PoolRequest.isFulfilled]
  · rcases r with ⟨s⟩
    cases s <;> rfl

/-- Claim C8: `stream` performs the same normalization and emits the
same pre-dispatch tagged `query` event as `query`, but a driver failure
surfaces unmodified: no message rewrite and no `query-error` event. -/
theorem stream_surfaces_errors_unmodified (conn : Connection)
    (req : QueryRequest) (e : JsError) (v : Nat) (d : Except JsError Nat) :
    stream conn req (Except.error e) =
      (Except.error e, [ClientEvent.query conn.knexUid (normalizeRequest req)])
  ∧ stream conn req (Except.ok v) =
      (Except.ok v, [ClientEvent.query conn.knexUid (normalizeRequest req)])
  ∧ (stream conn req d).2.head? = (query conn req d).2.head? := by
  refine ⟨rfl, rfl, ?_⟩
  cases d <;> rfl

/-- Claim C9: `wrapIdentifier` wraps its argument in double quotes with
every embedded double-quote character doubled, except that `*` passes
through unchanged; in particular the two concrete instances of the
claim. -/
theorem wrapIdentifier_doubles_quotes (s : String) (h : s ≠ "*") :
    (wrapIdentifier s).data =
      '"' :: (s.data.map (fun c => if c = '"' then ['"', '"'] else [c])).flatten
        ++ ['"']
  ∧ wrapIdentifier "*" = "*"
  ∧ wrapIdentifier "a\"b" = "\"a\"\"b\"" := by
  refine ⟨?_, rfl, by decide⟩
  simp [wrapIdentifier, h, ← jsReplaceQuote_eq_join_map, String.data_append]

theorem wrapIdentifier_doubles_quotes_witness :
    ("a\"b" : String) ≠ "*"
  ∧ (wrapIdentifier "a\"b").data =
      '"' :: (("a\"b" : String).data.map
        (fun c => if c = '"' then ['"', '"'] else [c])).flatten ++ ['"'] :=
  ⟨by decide, (wrapIdentifier_doubles_quotes "a\"b" (by decide)).1⟩

/-- Claim C10: a pool configuration omitting `min` or `max` yields a
pool sized with the defaults min = 2 and max = 10, each default
overridden field-wise by a supplied value; through the constructor and
directly on an empty pool config. -/
theorem pool_defaults_min_two_max_ten (pc : PoolConfig) (h : pc.max ≠ some 0) :
    mkClient true { connection := true, pool := some pc } =
      Except.ok ⟨some ⟨pc.min.getD 2, pc.max.getD 10, pc⟩, none⟩
  ∧ initializePool {} = ⟨2, 10, {}⟩ := by
  refine ⟨?_, rfl⟩
  simp [mkClient, initializePool, h]

theorem pool_defaults_min_two_max_ten_witness :
    (PoolConfig.mk (some 5) none false false).max ≠ some 0
  ∧ mkClient true
        { connection := true, pool := some (PoolConfig.mk (some 5) none false false) } =
      Except.ok ⟨some ⟨5, 10, PoolConfig.mk (some 5) none false false⟩, none⟩ :=
  ⟨by decide,
    (pool_defaults_min_two_max_ten (PoolConfig.mk (some 5) none false false)
      (by decide)).1⟩

end KnexClient
